import Mathlib

/-!
Shallow embedding of the gym-lead-qualifier core (Django app `leads`):
the outcome classifier (`llm_service.detect_conversation_outcome`), the
provider-fallback call layer (`llm_service._call_llm`), the per-reply
dispatch of the polling command (`poll_emails.Command.handle`), the lead
scoring heuristic (`lead_scoring_service.calculate_lead_score`), the cold
sweep (`cold_lead_service.check_cold_leads`) and the approval queue
(`prospect_service.approve_response`, `PendingResponse.get_final_content`).

Database rows are modelled as plain structures; external LLM calls are
modelled by passing their result in as data.  Python `float` arithmetic of
the scoring heuristic is modelled over `ℚ` (all constants are exact
decimals).  Datetimes are modelled by the two observers the code uses:
seconds (for differences and ordering) and hour of day.
-/

namespace GymLeads

/-- A datetime, reduced to the two observers the source consumes:
`seconds` (epoch seconds, used for differences and `<` comparisons) and
`hour` (the `datetime.hour` field, used by the business-hours bonus). -/
structure Timestamp where
  seconds : ℚ
  hour : Nat
deriving DecidableEq, Repr

/-- The `INTENT_DETECTION` payload fields read by the scoring code
(`intent_data.get('confidence_level', 0)`, `intent_data.get('detected_intent', '')`);
a `none` field models an absent JSON key. -/
structure IntentData where
  confidence_level : Option ℚ
  detected_intent : Option String
deriving DecidableEq, Repr

/-- Result of `extract_intent_from_conversation`'s per-message scan of an
LLM message: searching `content` for the `INTENT_DETECTION:` marker and
running `json.loads` on the brace-delimited span.
`skip` = no marker, or marker without an extractable `{...}` span (the
Python loop moves on to the next message); `parse_error` = `json.loads`
raised (the surrounding `try` makes the whole extraction return `None`);
`found d` = a parsed payload. -/
inductive IntentScan where
  | skip
  | parse_error
  | found (d : IntentData)
deriving DecidableEq, Repr

/-- A row of the `Message` model: `role ∈ {prospect, llm_generated, sent}`,
`content`, `created_at`; plus the (derived) result of the intent-marker
scan of `content` described at `IntentScan`. -/
structure Msg where
  role : String
  content : String
  created_at : Timestamp
  intent_scan : IntentScan
deriving DecidableEq, Repr

/-- A row of the `Prospect` model (fields the core reads). -/
structure Prospect where
  email : String
  first_name : String
  phone : Option String
deriving DecidableEq, Repr

/-- A snapshot of a `Conversation` row together with its ordered message
transcript (the related `messages`, ordered by `created_at` as the model's
`Meta.ordering` prescribes). -/
structure ConversationS where
  prospect : Prospect
  thread_subject : String
  status : String
  outcome : Option String
  last_message_at : Timestamp
  created_at : Timestamp
  messages : List Msg
deriving DecidableEq, Repr

/-- The `SystemConfig` singleton fields the core reads. -/
structure SystemConfigS where
  cold_lead_threshold_days : Int
  cold_lead_notifications_enabled : Bool
  max_message_exchanges : Nat
  llm_provider_primary : String
deriving DecidableEq, Repr

/-- Python truthiness of an optional string (`None` and `""` are falsy):
used by `if edited_content:`, `if conversation.prospect.phone:` and
`self.edited_content if self.edited_content else ...`. -/
def truthyStr : Option String → Bool
  | none => false
  | some s => !(s == "")

/-- `needle` occurs as a contiguous sublist of `haystack`. -/
def substr_in (needle : List Char) : List Char → Bool
  | [] => needle.isEmpty
  | c :: rest => List.isPrefixOf needle (c :: rest) || substr_in needle rest

/-- Python's `in` operator on strings: substring containment. -/
def str_contains (haystack needle : String) : Bool :=
  substr_in needle.data haystack.data

/-- Python's `str.lower()` (character-wise lowercasing). -/
def str_lower (s : String) : String := ⟨s.data.map Char.toLower⟩

/-! ## Outcome classifier (`llm_service.detect_conversation_outcome`) -/

/-- The two fields `detect_conversation_outcome` reads from the JSON object
the classification model returned (`assessment.get("should_end", False)`,
`assessment.get("outcome", "continue")`); `none` models an absent key. -/
structure Assessment where
  should_end : Option Bool
  outcome : Option String
deriving DecidableEq, Repr

/-- What the classification attempt produced, as seen from inside the
`try` of `detect_conversation_outcome`: `call_failed` = `_call_llm` raised
(both providers failed, or no client configured); `bad_json` = `json.loads`
raised on the (fence-stripped) response text; `parsed a` = a JSON object
was decoded, with the two relevant fields in `a`. -/
inductive ClassifierCall where
  | call_failed
  | bad_json
  | parsed (a : Assessment)
deriving DecidableEq, Repr

/-- `llm_service.detect_conversation_outcome`, lines 392-454: on any
exception in the body the `except` arm returns `(False, None)`; on a
decoded JSON object it returns `should_end` as decoded (default `False`)
and maps `outcome` to `some` only for the two terminal outcome strings. -/
def detect_conversation_outcome (r : ClassifierCall) : Bool × Option String :=
  match r with
  | .call_failed => (false, none)
  | .bad_json => (false, none)
  | .parsed a =>
    let se := a.should_end.getD false
    let outcome_str := a.outcome.getD "continue"
    let oc : Option String :=
      if outcome_str == "agreed_to_free_class" then some "agreed_to_free_class"
      else if outcome_str == "not_interested" then some "not_interested"
      else none
    (se, oc)

/-! ## Per-reply dispatch (`poll_emails.Command.handle`, lines 116-198) -/

/-- What the polling command does with one inbound reply after logging it:
close with the classifier's outcome, close with `reached_message_limit`,
or generate a normal turn. -/
inductive ReplyAction where
  | close_with_outcome (o : String)
  | close_limit
  | normal_turn
deriving DecidableEq, Repr

/-- The branch structure of `poll_emails.Command.handle` for one reply
(lines 116-198): first `detect_conversation_outcome`; if `should_end and
outcome` then close with that outcome; else if
`conversation.message_count() >= config.max_message_exchanges * 2` close
with `reached_message_limit`; else generate a normal turn.
`message_count` is the transcript length after the inbound message was
logged. -/
def process_reply (r : ClassifierCall) (message_count : Nat)
    (max_message_exchanges : Nat) : ReplyAction :=
  let se := (detect_conversation_outcome r).1
  let oc := (detect_conversation_outcome r).2
  if se && oc.isSome then .close_with_outcome (oc.getD "")
  else if message_count ≥ max_message_exchanges * 2 then .close_limit
  else .normal_turn

/-! ## Provider fallback (`llm_service._call_llm`, lines 226-287) -/

/-- The environment of one `_call_llm` invocation: whether each API key is
configured (Python truthiness of `settings.GROK_API_KEY` /
`settings.OPENAI_API_KEY`) and the result each provider's
`chat.completions.create` call would produce (`.ok` = response content,
`.error` = the exception it raises). -/
structure LLMEnv where
  grok_key : Bool
  openai_key : Bool
  grok_call : Except String String
  openai_call : Except String String
deriving Repr

/-- `llm_service._call_llm`: returns the ordered list of providers whose
completion endpoint was actually invoked, paired with the outcome — `.ok
(content, provider_used)` mirroring the Python return value, `.error e`
mirroring the exception surfaced to the caller.  Branches mirror the
source: primary client selection (grok when `provider == 'grok'` and the
grok key is set, OpenAI otherwise), `ValueError` when no client is
configured, and the single fallback retry against OpenAI when the primary
attempt raises and `provider == 'grok'` and the OpenAI key is set. -/
def call_llm (env : LLMEnv) (provider : String) :
    List String × Except String (String × String) :=
  if provider == "grok" && env.grok_key then
    match env.grok_call with
    | .ok content => (["grok"], .ok (content, "grok"))
    | .error e =>
      if provider == "grok" && env.openai_key then
        match env.openai_call with
        | .ok content => (["grok", "openai"], .ok (content, "openai"))
        | .error e2 => (["grok", "openai"], .error e2)
      else (["grok"], .error e)
  else
    if !env.openai_key then
      ([], .error "No LLM client configured - check API keys in .env")
    else
      match env.openai_call with
      | .ok content => (["openai"], .ok (content, "openai"))
      | .error e =>
        if provider == "grok" && env.openai_key then
          match env.openai_call with
          | .ok content => (["openai", "openai"], .ok (content, "openai"))
          | .error e2 => (["openai", "openai"], .error e2)
        else (["openai"], .error e)

/-- The provider `detect_conversation_outcome` pins its `_call_llm`
invocation to (line 425: `provider='openai'  # Use OpenAI for assessment`). -/
def classifier_provider : String := "openai"

/-! ## Cold sweep (`cold_lead_service.check_cold_leads`, lines 12-53) -/

/-- Sets a conversation's status to `'cold'` (the `conv.status = 'cold';
conv.save()` mutation). -/
def mark_cold (c : ConversationS) : ConversationS := { c with status := "cold" }

/-- The condition under which `check_cold_leads` marks one conversation:
the queryset filter `status='active', last_message_at__lt = now -
timedelta(days=threshold)` together with the per-row check that the last
message of the thread exists and has role `'sent'`. -/
def is_marked_cold (config : SystemConfigS) (now : ℚ) (c : ConversationS) : Bool :=
  c.status == "active" &&
  decide (c.last_message_at.seconds <
    now - (config.cold_lead_threshold_days : ℚ) * 86400) &&
  (match c.messages.getLast? with
   | some m => m.role == "sent"
   | none => false)

/-- `cold_lead_service.check_cold_leads`: returns `[]` when cold-lead
notifications are disabled; otherwise marks every active, stale,
outbound-last conversation cold and returns the newly marked ones (with
their status already set to `'cold'`, as the Python appends the mutated
rows). -/
def check_cold_leads (config : SystemConfigS) (now : ℚ)
    (convs : List ConversationS) : List ConversationS :=
  if !config.cold_lead_notifications_enabled then []
  else (convs.filter (is_marked_cold config now)).map mark_cold

/-! ## Approval queue (`prospect_service`, `models.PendingResponse`) -/

/-- A row of the `PendingResponse` model (fields the approval flow reads
and writes). -/
structure PendingResponse where
  llm_content : String
  status : String
  edited_content : Option String
  llm_provider : String
  actioned_at : Option ℚ
deriving DecidableEq, Repr

/-- `prospect_service.create_pending_response`: a fresh row with status
`'pending'`; `edited_content` and `actioned_at` start as NULL (the model's
defaults). -/
def create_pending_response (llm_content : String) (llm_provider : String) :
    PendingResponse :=
  { llm_content := llm_content, status := "pending", edited_content := none,
    llm_provider := llm_provider, actioned_at := none }

/-- `prospect_service.approve_response` (lines 208-234), success path on a
fetched row: `if edited_content:` (Python truthiness) stores the edit and
sets status `'edited'`, otherwise sets status `'approved'`; either way
stamps `actioned_at`. -/
def approve_response (p : PendingResponse) (edited_content : Option String)
    (now : ℚ) : PendingResponse :=
  if truthyStr edited_content then
    { p with edited_content := edited_content, status := "edited",
             actioned_at := some now }
  else
    { p with status := "approved", actioned_at := some now }

/-- `models.PendingResponse.get_final_content` (lines 242-244):
`self.edited_content if self.edited_content else self.llm_content`, with
Python truthiness on the edited text. -/
def get_final_content (p : PendingResponse) : String :=
  match p.edited_content with
  | some s => if s == "" then p.llm_content else s
  | none => p.llm_content

/-! ## Lead scoring (`lead_scoring_service`, lines 13-241) -/

/-- The scan of `extract_intent_from_conversation`'s message loop:
walks the candidate messages in order, skipping messages without a usable
`INTENT_DETECTION` payload, returning the first parsed payload, and
aborting with an error when `json.loads` raises (the exception escapes the
loop into the function's `except` arm). -/
def find_marked_intent : List Msg → Except Unit (Option IntentData)
  | [] => Except.ok none
  | m :: rest =>
    match m.intent_scan with
    | .skip => find_marked_intent rest
    | .parse_error => Except.error ()
    | .found d => Except.ok (some d)

/-- The queryset of `extract_intent_from_conversation` lines 158-160: LLM
messages (`role__in=['llm_generated', 'sent']`), newest first
(`order_by('-created_at')`), first five. -/
def llm_messages_recent (c : ConversationS) : List Msg :=
  ((c.messages.filter (fun m => m.role == "llm_generated" || m.role == "sent")).reverse).take 5

/-- `lead_scoring_service.extract_intent_from_conversation` (lines
151-193): first parsed `INTENT_DETECTION` payload among the last five LLM
messages; `None` if `json.loads` raised anywhere; else the
`agreed_to_free_class` fallback payload (confidence 0.9, intent
`wants_free_class`); else `None`. -/
def extract_intent_from_conversation (c : ConversationS) : Option IntentData :=
  match find_marked_intent (llm_messages_recent c) with
  | .error _ => none
  | .ok (some d) => some d
  | .ok none =>
    if c.outcome == some "agreed_to_free_class" then
      some { confidence_level := some (9/10), detected_intent := some "wants_free_class" }
    else none

/-- The keyword lexicon of `detect_buying_signals` (lines 200-206), in the
source's dict insertion order. -/
def buying_keywords : List (String × List String) :=
  [("schedule", ["when", "what time", "schedule", "book", "sign up", "available"]),
   ("price", ["cost", "price", "how much", "fee", "payment", "afford"]),
   ("commitment", ["ready", "start", "begin", "join", "lets do", "let\x27s do", "sounds good"]),
   ("urgency", ["today", "tomorrow", "this week", "soon", "asap", "right away"]),
   ("comparison", ["better than", "compared to", "vs", "other gyms", "why you"])]

/-- The factor string `detect_buying_signals` appends for each newly
detected signal category (lines 223-232; the five categories exhaust the
lexicon, so the trailing branch is `comparison`). -/
def signal_factor (ty : String) : String :=
  if ty == "schedule" then "Asking about scheduling"
  else if ty == "price" then "Price conscious (address value)"
  else if ty == "commitment" then "Shows commitment"
  else if ty == "urgency" then "Urgent timeline"
  else "Comparing options"

/-- One iteration of `detect_buying_signals`'s outer message loop over one
lowercased content string: for each category (in lexicon order), if some
keyword occurs as a substring and the category is new, record the category
and its factor.  State = (detected category keys, factors), both in
detection order. -/
def scan_message (st : List String × List String) (content_lower : String) :
    List String × List String :=
  buying_keywords.foldl
    (fun st p =>
      if p.2.any (fun kw => str_contains content_lower kw) then
        if st.1.contains p.1 then st
        else (st.1 ++ [p.1], st.2 ++ [signal_factor p.1])
      else st)
    st

/-- The queryset of `detect_buying_signals` line 212: prospect messages,
newest first, first three. -/
def recent_prospect_messages (c : ConversationS) : List Msg :=
  ((c.messages.filter (fun m => m.role == "prospect")).reverse).take 3

/-- The return value of `detect_buying_signals`: detected factor strings
and category keys. -/
structure BuyingSignals where
  factors : List String
  keywords : List String
deriving DecidableEq, Repr

/-- `lead_scoring_service.detect_buying_signals` (lines 196-241). -/
def detect_buying_signals (c : ConversationS) : Option BuyingSignals :=
  let st := (recent_prospect_messages c).foldl
    (fun st m => scan_message st (str_lower m.content)) ([], [])
  if st.2.isEmpty then none
  else some { factors := st.2, keywords := st.1 }

/-- The earliest prospect message
(`conversation.messages.filter(role='prospect').first()`, ascending
`created_at` order). -/
def first_prospect_reply (c : ConversationS) : Option Msg :=
  (c.messages.filter (fun m => m.role == "prospect")).head?

/-- One scoring stage's outputs: (points added, factor strings appended,
recommendation strings appended). -/
structure Stage where
  points : ℚ
  factors : List String
  recommendations : List String

/-- The intents granted the high-value bonus (lines 39). -/
def high_value_intents : List String :=
  ["weight_loss", "stress_relief_mental_health", "learn_boxing_technique"]

/-- Scoring stage 1, intent detection (lines 28-49). -/
def intent_stage (intent_data : Option IntentData) : Stage :=
  match intent_data with
  | none => ⟨0, [], []⟩
  | some d =>
    let confidence := d.confidence_level.getD 0
    let detected_intent := d.detected_intent.getD ""
    if 4/5 < confidence then
      if high_value_intents.contains detected_intent then
        ⟨1/4 + 1/10, ["Clear intent: " ++ detected_intent, "High-value goal"],
         ["Premium package opportunity"]⟩
      else ⟨1/4, ["Clear intent: " ++ detected_intent], []⟩
    else if 3/5 < confidence then ⟨3/20, ["Moderate intent: " ++ detected_intent], []⟩
    else if 2/5 < confidence then ⟨1/20, ["Unclear intent"], []⟩
    else ⟨0, [], []⟩

/-- Scoring stage 2, response time (lines 51-69):
`(first_reply.created_at - conversation.created_at).total_seconds()`
against the 5 min / 15 min / 1 h / 24 h ladder. -/
def time_stage (c : ConversationS) : Stage :=
  match first_prospect_reply c with
  | none => ⟨0, [], []⟩
  | some m =>
    let time_to_respond := m.created_at.seconds - c.created_at.seconds
    if time_to_respond < 300 then
      ⟨1/5, ["Very fast response (<5 min)"], ["Call immediately - high engagement"]⟩
    else if time_to_respond < 900 then
      ⟨3/20, ["Fast response (<15 min)"], ["Priority follow-up"]⟩
    else if time_to_respond < 3600 then ⟨1/10, ["Quick response (<1 hr)"], []⟩
    else if time_to_respond < 86400 then ⟨1/20, ["Same-day response"], []⟩
    else ⟨0, [], []⟩

/-- Scoring stage 3, contact completeness (lines 71-75):
`if conversation.prospect.phone:`. -/
def phone_stage (c : ConversationS) : Stage :=
  if truthyStr c.prospect.phone then
    ⟨1/10, ["Phone provided"], ["SMS follow-up available"]⟩
  else ⟨0, [], []⟩

/-- Scoring stage 4, conversation outcome (lines 77-85): +0.15 for
`agreed_to_free_class`, the single deduction −0.2 for `not_interested`. -/
def outcome_stage (c : ConversationS) : Stage :=
  if c.outcome == some "agreed_to_free_class" then
    ⟨3/20, ["Agreed to free class!"], ["Schedule ASAP - ready to convert"]⟩
  else if c.outcome == some "not_interested" then
    ⟨-(1/5), ["Not interested"], ["Add to nurture campaign"]⟩
  else ⟨0, [], []⟩

/-- Scoring stage 5a, engagement by prospect-message count (lines 87-96). -/
def engagement_stage (c : ConversationS) : Stage :=
  let prospect_messages := (c.messages.filter (fun m => m.role == "prospect")).length
  if 3 ≤ prospect_messages then
    ⟨1/10, ["High engagement (" ++ toString prospect_messages ++ " messages)"], []⟩
  else if 2 ≤ prospect_messages then
    ⟨1/20, ["Good engagement (" ++ toString prospect_messages ++ " messages)"], []⟩
  else ⟨0, [], []⟩

/-- The `content__regex=r'.\x7b100,\x7d'` filter of lines 99-101: the content
has a run of 100 non-newline characters, i.e. some line is 100+ characters
long. -/
def has_long_run (s : String) : Bool :=
  (List.splitOn '\n' s.data).any (fun line => 100 ≤ line.length)

/-- Scoring stage 5b, long prospect messages (lines 98-104). -/
def long_stage (c : ConversationS) : Stage :=
  let long_messages :=
    ((c.messages.filter (fun m => m.role == "prospect")).filter
      (fun m => has_long_run m.content)).length
  if 0 < long_messages then ⟨1/20, ["Detailed responses"], []⟩ else ⟨0, [], []⟩

/-- Scoring stage 6, buying signals (lines 106-112). -/
def buying_stage (c : ConversationS) : Stage :=
  match detect_buying_signals c with
  | none => ⟨0, [], []⟩
  | some bs =>
    ⟨1/10, bs.factors,
     if bs.keywords.contains "schedule" then
       ["Ready to schedule - mention available times"]
     else []⟩

/-- Scoring stage 7, time-of-day bonus (lines 114-120):
`9 <= first_reply.created_at.hour <= 17`. -/
def hours_stage (c : ConversationS) : Stage :=
  match first_prospect_reply c with
  | none => ⟨0, [], []⟩
  | some m =>
    if 9 ≤ m.created_at.hour ∧ m.created_at.hour ≤ 17 then
      ⟨1/20, ["Business hours response"], []⟩
    else ⟨0, [], []⟩

/-- The score interpretation ladder (lines 129-138). -/
def interpretation_of (s : ℚ) : String :=
  if 4/5 ≤ s then "🔥 VERY HOT - Contact immediately!"
  else if 7/10 ≤ s then "🌟 HOT - Priority follow-up needed"
  else if 3/5 ≤ s then "♨️ WARM - Good potential"
  else if 2/5 ≤ s then "🌡️ LUKEWARM - Needs nurturing"
  else "❄️ COLD - Low priority"

/-- The dict `calculate_lead_score` returns (lines 140-148). -/
structure LeadScore where
  score : ℚ
  factors : List String
  is_hot : Bool
  intent : Option IntentData
  recommendations : List String
  interpretation : String
  reason : String

/-- `lead_scoring_service.calculate_lead_score` (lines 13-148): base score
0.4, the seven additive stages in source order, the `min(score, 1.0)` cap,
`is_hot = final_score >= 0.7`, and the returned factor/recommendation
lists in the order the source appends them. -/
def calculate_lead_score (c : ConversationS) : LeadScore :=
  let intent_data := extract_intent_from_conversation c
  let s1 := intent_stage intent_data
  let s2 := time_stage c
  let s3 := phone_stage c
  let s4 := outcome_stage c
  let s5 := engagement_stage c
  let s6 := long_stage c
  let s7 := buying_stage c
  let s8 := hours_stage c
  let score : ℚ := 2/5 + s1.points + s2.points + s3.points + s4.points
    + s5.points + s6.points + s7.points + s8.points
  let factors := s1.factors ++ s2.factors ++ s3.factors ++ s4.factors
    ++ s5.factors ++ s6.factors ++ s7.factors ++ s8.factors
  let recommendations := s1.recommendations ++ s2.recommendations
    ++ s3.recommendations ++ s4.recommendations ++ s5.recommendations
    ++ s6.recommendations ++ s7.recommendations ++ s8.recommendations
  let final_score := min score 1
  { score := final_score,
    factors := factors,
    is_hot := decide (7/10 ≤ final_score),
    intent := intent_data,
    recommendations := recommendations,
    interpretation := interpretation_of final_score,
    reason := if factors.isEmpty then "Standard lead"
              else String.intercalate ", " (factors.take 3) }

/-- The running total of `calculate_lead_score` just before the
`min(score, 1.0)` cap: the 0.4 base plus the seven stage contributions. -/
def raw_lead_score (c : ConversationS) : ℚ :=
  2/5 + (intent_stage (extract_intent_from_conversation c)).points
    + (time_stage c).points + (phone_stage c).points + (outcome_stage c).points
    + (engagement_stage c).points + (long_stage c).points
    + (buying_stage c).points + (hours_stage c).points

/-! ## Concrete fixtures (used by witnesses) -/

/-- A conversation whose prospect replied once, quickly, with a phone
number on file and an agreed outcome. -/
def sample_conversation : ConversationS :=
  { prospect := { email := "p@x.io", first_name := "Pat", phone := some "555" },
    thread_subject := "hi", status := "active",
    outcome := some "agreed_to_free_class",
    last_message_at := { seconds := 400, hour := 10 },
    created_at := { seconds := 0, hour := 9 },
    messages := [{ role := "sent", content := "welcome",
                   created_at := { seconds := 10, hour := 9 },
                   intent_scan := .skip },
                 { role := "prospect", content := "sounds good, when can I start?",
                   created_at := { seconds := 200, hour := 10 },
                   intent_scan := .skip }] }

/-- An active conversation whose only message is outbound and one second
old at `now = 1`. -/
def sample_stale_conversation : ConversationS :=
  { prospect := { email := "p@x.io", first_name := "Pat", phone := none },
    thread_subject := "hi", status := "active", outcome := none,
    last_message_at := { seconds := 0, hour := 9 },
    created_at := { seconds := 0, hour := 9 },
    messages := [{ role := "sent", content := "hello",
                   created_at := { seconds := 0, hour := 9 },
                   intent_scan := .skip }] }

/-- A config with cold-lead notifications enabled and a zero-day
threshold. -/
def sample_config : SystemConfigS :=
  { cold_lead_threshold_days := 0, cold_lead_notifications_enabled := true,
    max_message_exchanges := 10, llm_provider_primary := "grok" }

/-- An environment where both keys are set, the grok call raises and the
OpenAI call succeeds. -/
def sample_env : LLMEnv :=
  { grok_key := true, openai_key := true,
    grok_call := Except.error "rate limited",
    openai_call := Except.ok "hello" }

/-! ## Helper lemmas -/

theorem is_marked_cold_iff (config : SystemConfigS) (now : ℚ) (c : ConversationS) :
    is_marked_cold config now c = true ↔
      (c.status = "active" ∧
       c.last_message_at.seconds <
         now - (config.cold_lead_threshold_days : ℚ) * 86400 ∧
       ∃ m, c.messages.getLast? = some m ∧ m.role = "sent") := by
  unfold is_marked_cold
  cases h : c.messages.getLast? with
  | none => simp [h]
  | some m =>
    simp only [h, Bool.and_eq_true, beq_iff_eq, decide_eq_true_eq]
    constructor
    · rintro ⟨⟨h1, h2⟩, h3⟩
      exact ⟨h1, h2, m, rfl, h3⟩
    · rintro ⟨h1, h2, m', hm', h3⟩
      cases Option.some.inj hm'
      exact ⟨⟨h1, h2⟩, h3⟩

theorem intent_stage_nonneg (d : Option IntentData) :
    0 ≤ (intent_stage d).points := by
  cases d with
  | none => simp [intent_stage]
  | some d =>
    simp only [intent_stage]
    split_ifs <;> norm_num

theorem time_stage_nonneg (c : ConversationS) : 0 ≤ (time_stage c).points := by
  unfold time_stage
  cases first_prospect_reply c with
  | none => norm_num
  | some m =>
    simp only
    split_ifs <;> norm_num

theorem phone_stage_nonneg (c : ConversationS) : 0 ≤ (phone_stage c).points := by
  unfold phone_stage
  split_ifs <;> norm_num

theorem outcome_stage_lower (c : ConversationS) :
    -(1/5) ≤ (outcome_stage c).points := by
  unfold outcome_stage
  split_ifs <;> norm_num

theorem engagement_stage_nonneg (c : ConversationS) :
    0 ≤ (engagement_stage c).points := by
  unfold engagement_stage
  dsimp only
  split_ifs <;> norm_num

theorem long_stage_nonneg (c : ConversationS) : 0 ≤ (long_stage c).points := by
  unfold long_stage
  dsimp only
  split_ifs <;> norm_num

theorem buying_stage_nonneg (c : ConversationS) :
    0 ≤ (buying_stage c).points := by
  unfold buying_stage
  cases detect_buying_signals c with
  | none => norm_num
  | some bs => norm_num

theorem hours_stage_nonneg (c : ConversationS) :
    0 ≤ (hours_stage c).points := by
  unfold hours_stage
  cases first_prospect_reply c with
  | none => norm_num
  | some m =>
    simp only
    split_ifs <;> norm_num

theorem raw_lead_score_lower (c : ConversationS) : 1/5 ≤ raw_lead_score c := by
  unfold raw_lead_score
  have h1 := intent_stage_nonneg (extract_intent_from_conversation c)
  have h2 := time_stage_nonneg c
  have h3 := phone_stage_nonneg c
  have h4 := outcome_stage_lower c
  have h5 := engagement_stage_nonneg c
  have h6 := long_stage_nonneg c
  have h7 := buying_stage_nonneg c
  have h8 := hours_stage_nonneg c
  linarith

theorem calculate_lead_score_score_eq (c : ConversationS) :
    (calculate_lead_score c).score = min (raw_lead_score c) 1 := rfl

/-! ## Claim theorems -/

/-- C1, counterexample: the classifier passes `should_end` and `outcome`
through independently, so the decoded JSON object
`{"should_end": true, "outcome": "continue"}` makes
`detect_conversation_outcome` return `(True, None)` — `should_end` is true
while the outcome is null, refuting "should_end is true iff outcome is
non-null". -/
theorem detect_outcome_inconsistent_input_breaks_iff :
    ¬(((detect_conversation_outcome
          (.parsed { should_end := some true, outcome := some "continue" })).1 = true) ↔
      ((detect_conversation_outcome
          (.parsed { should_end := some true, outcome := some "continue" })).2 ≠ none)) := by
  decide

/-- C1, amended: whenever the decoded assessment JSON is itself
self-consistent — its `should_end` field is true exactly when its
`outcome` field is `agreed_to_free_class` or `not_interested`, as the
assessment prompt instructs — the returned pair satisfies
"should_end iff outcome non-null", and an outcome field of `continue`
yields `should_end = false`. -/
theorem detect_outcome_consistent_input_iff (a : Assessment)
    (h : a.should_end.getD false = true ↔
      (a.outcome.getD "continue" = "agreed_to_free_class" ∨
       a.outcome.getD "continue" = "not_interested")) :
    (((detect_conversation_outcome (.parsed a)).1 = true) ↔
      ((detect_conversation_outcome (.parsed a)).2 ≠ none)) ∧
    (a.outcome.getD "continue" = "continue" →
      (detect_conversation_outcome (.parsed a)).1 = false) := by
  have hse : (detect_conversation_outcome (.parsed a)).1 = a.should_end.getD false := rfl
  have hoc : (detect_conversation_outcome (.parsed a)).2 =
      (if a.outcome.getD "continue" == "agreed_to_free_class" then
        some "agreed_to_free_class"
      else if a.outcome.getD "continue" == "not_interested" then
        some "not_interested"
      else none) := rfl
  rw [hse, hoc]
  by_cases h1 : a.outcome.getD "continue" = "agreed_to_free_class"
  · simp only [h1, beq_self_eq_true, if_true]
    constructor
    · simp only [ne_eq, reduceCtorEq, not_false_eq_true, iff_true]
      exact h.mpr (Or.inl h1)
    · intro hc
      exact absurd hc (by decide)
  · by_cases h2 : a.outcome.getD "continue" = "not_interested"
    · simp only [h2, beq_self_eq_true, if_true, beq_iff_eq]
      rw [if_neg (by simp [h2])]
      constructor
      · simp only [ne_eq, reduceCtorEq, not_false_eq_true, iff_true]
        exact h.mpr (Or.inr h2)
      · intro hc
        exact absurd hc (by decide)
    · rw [if_neg (by simpa using h1), if_neg (by simpa using h2)]
      constructor
      · simp only [ne_eq, not_true_eq_false, iff_false]
        intro hse'
        rcases h.mp hse' with h' | h'
        · exact h1 h'
        · exact h2 h'
      · intro _
        rw [Bool.eq_false_iff]
        intro hse'
        rcases h.mp hse' with h' | h'
        · exact h1 h'
        · exact h2 h'

/-- C1, witness for the amended theorem at a concrete consistent
assessment. -/
theorem detect_outcome_consistent_input_iff_witness :
    (((some true : Option Bool).getD false = true) ↔
      (((some "agreed_to_free_class" : Option String).getD "continue" = "agreed_to_free_class") ∨
       ((some "agreed_to_free_class" : Option String).getD "continue" = "not_interested"))) ∧
    ((((detect_conversation_outcome
          (.parsed { should_end := some true, outcome := some "agreed_to_free_class" })).1 = true) ↔
       ((detect_conversation_outcome
          (.parsed { should_end := some true, outcome := some "agreed_to_free_class" })).2 ≠ none)) ∧
     (((some "agreed_to_free_class" : Option String).getD "continue" = "continue") →
       (detect_conversation_outcome
          (.parsed { should_end := some true, outcome := some "agreed_to_free_class" })).1 = false)) :=
  ⟨by decide,
   detect_outcome_consistent_input_iff
     { should_end := some true, outcome := some "agreed_to_free_class" } (by decide)⟩

/-- C4: any failure of the classification attempt — the provider call
raising (`call_failed`) or the response text failing to decode as JSON
(`bad_json`) — makes `detect_conversation_outcome` return
`(False, None)`; the function is total on these inputs, so no exception
reaches the polling cycle. -/
theorem detect_outcome_failure_defaults :
    detect_conversation_outcome .call_failed = (false, none) ∧
    detect_conversation_outcome .bad_json = (false, none) :=
  ⟨rfl, rfl⟩

/-- C2, counterexample: a conversation at the message limit
(20 messages, configured maximum 10 exchanges) whose inbound message makes
the classifier return `(True, "agreed_to_free_class")` is closed with
outcome `agreed_to_free_class`, not `reached_message_limit` — the
classifier check runs before the limit check, so the limit outcome is not
forced "regardless of content". -/
theorem process_reply_limit_not_forced :
    20 ≥ 10 * 2 ∧
    process_reply
      (.parsed { should_end := some true, outcome := some "agreed_to_free_class" })
      20 10 = .close_with_outcome "agreed_to_free_class" ∧
    process_reply
      (.parsed { should_end := some true, outcome := some "agreed_to_free_class" })
      20 10 ≠ .close_limit := by
  refine ⟨by decide, rfl, by decide⟩

/-- C2, amended: when the transcript length has reached twice the
configured maximum exchange count, the polling command never generates a
normal turn, and — provided the outcome classifier did not itself end the
conversation (`should_end` false or outcome null) — it closes the
conversation with outcome `reached_message_limit`.  The limit check
precedes normal turn generation but follows the classifier check. -/
theorem process_reply_limit_closes (r : ClassifierCall)
    (message_count max_message_exchanges : Nat)
    (hlimit : message_count ≥ max_message_exchanges * 2) :
    process_reply r message_count max_message_exchanges ≠ .normal_turn ∧
    (((detect_conversation_outcome r).1 = false ∨
      (detect_conversation_outcome r).2 = none) →
      process_reply r message_count max_message_exchanges = .close_limit) := by
  unfold process_reply
  constructor
  · by_cases hb : ((detect_conversation_outcome r).1 &&
        (detect_conversation_outcome r).2.isSome) = true
    · simp [hb]
    · simp [hb, if_pos hlimit]
  · intro hno
    have hb : ((detect_conversation_outcome r).1 &&
        (detect_conversation_outcome r).2.isSome) = false := by
      rcases hno with h | h <;> simp [h]
    simp [hb, if_pos hlimit]

/-- C2, witness for the amended theorem: a failed classification on a
conversation at the limit closes with `reached_message_limit`. -/
theorem process_reply_limit_closes_witness :
    (20 ≥ 10 * 2) ∧
    (process_reply .call_failed 20 10 ≠ .normal_turn ∧
     (((detect_conversation_outcome .call_failed).1 = false ∨
       (detect_conversation_outcome .call_failed).2 = none) →
       process_reply .call_failed 20 10 = .close_limit)) :=
  ⟨by decide, process_reply_limit_closes .call_failed 20 10 (by decide)⟩

/-- C3: the lead score is always within [0, 1] (it is in fact never below
0.2, so the single upper cap `min(score, 1.0)` suffices), and the returned
`is_hot` flag is true exactly when the returned score is ≥ 0.7. -/
theorem calculate_lead_score_bounds (c : ConversationS) :
    0 ≤ (calculate_lead_score c).score ∧ (calculate_lead_score c).score ≤ 1 ∧
    ((calculate_lead_score c).is_hot = true ↔
      7/10 ≤ (calculate_lead_score c).score) := by
  have hs := calculate_lead_score_score_eq c
  have hraw := raw_lead_score_lower c
  refine ⟨?_, ?_, ?_⟩
  · rw [hs]
    exact le_min (by linarith) (by norm_num)
  · rw [hs]
    exact min_le_right _ _
  · have hh : (calculate_lead_score c).is_hot =
        decide (7/10 ≤ (calculate_lead_score c).score) := rfl
    rw [hh]
    exact decide_eq_true_iff

/-- C9: the lead score never drops below 0.2 — the base is 0.4, every
stage except the `not_interested` outcome contributes nonnegatively, and
that single deduction is 0.2, so no lower clamp is needed even though the
code only caps the upper bound. -/
theorem calculate_lead_score_floor (c : ConversationS) :
    1/5 ≤ (calculate_lead_score c).score := by
  rw [calculate_lead_score_score_eq c]
  exact le_min (raw_lead_score_lower c) (by norm_num)

/-- C5: the cold sweep returns (and marks cold) exactly the active
conversations whose last activity is older than the threshold and whose
most recent message has role `sent`, and only when cold-lead notifications
are enabled; a conversation whose most recent message is from the prospect
is never in the swept set, regardless of age. -/
theorem check_cold_leads_characterization (config : SystemConfigS) (now : ℚ)
    (convs : List ConversationS) (c : ConversationS) :
    (c ∈ check_cold_leads config now convs ↔
      (config.cold_lead_notifications_enabled = true ∧
       ∃ c₀, c₀ ∈ convs ∧ c₀.status = "active" ∧
         c₀.last_message_at.seconds <
           now - (config.cold_lead_threshold_days : ℚ) * 86400 ∧
         (∃ m, c₀.messages.getLast? = some m ∧ m.role = "sent") ∧
         c = mark_cold c₀)) ∧
    ((c.messages.getLast?).map Msg.role = some "prospect" →
      c ∉ check_cold_leads config now convs) := by
  have hmem : c ∈ check_cold_leads config now convs ↔
      (config.cold_lead_notifications_enabled = true ∧
       ∃ c₀, c₀ ∈ convs ∧ c₀.status = "active" ∧
         c₀.last_message_at.seconds <
           now - (config.cold_lead_threshold_days : ℚ) * 86400 ∧
         (∃ m, c₀.messages.getLast? = some m ∧ m.role = "sent") ∧
         c = mark_cold c₀) := by
    unfold check_cold_leads
    by_cases hen : config.cold_lead_notifications_enabled
    · simp only [hen, Bool.not_true, Bool.false_eq_true, if_false, List.mem_map,
        List.mem_filter, true_and]
      constructor
      · rintro ⟨c₀, ⟨hin, hmk⟩, hmc⟩
        rcases (is_marked_cold_iff config now c₀).mp hmk with ⟨h1, h2, h3⟩
        exact ⟨c₀, hin, h1, h2, h3, hmc.symm⟩
      · rintro ⟨c₀, hin, h1, h2, h3, hmc⟩
        exact ⟨c₀, ⟨hin, (is_marked_cold_iff config now c₀).mpr ⟨h1, h2, h3⟩⟩, hmc.symm⟩
    · simp [hen]
  refine ⟨hmem, fun hrole hc => ?_⟩
  rcases hmem.mp hc with ⟨_, c₀, _, _, _, ⟨m, hlast, hsent⟩, hmk⟩
  rw [hmk] at hrole
  unfold mark_cold at hrole
  rw [hlast] at hrole
  have hr : m.role = "prospect" := by simpa using hrole
  rw [hsent] at hr
  exact absurd hr (by decide)

/-- C5, witness: with notifications enabled, threshold 0 days and `now`
one second past the last activity, an active conversation whose last
message is outbound is swept; membership is checked at a concrete
instance. -/
theorem check_cold_leads_characterization_witness :
    mark_cold sample_stale_conversation ∈
      check_cold_leads sample_config 1 [sample_stale_conversation] :=
  (check_cold_leads_characterization sample_config 1
      [sample_stale_conversation] (mark_cold sample_stale_conversation)).1.mpr
    ⟨rfl, sample_stale_conversation, List.mem_singleton.mpr rfl, rfl,
     by norm_num [sample_stale_conversation, sample_config],
     ⟨{ role := "sent", content := "hello",
        created_at := { seconds := 0, hour := 9 }, intent_scan := .skip },
      rfl, rfl⟩, rfl⟩

/-- C6: with both API keys configured, a turn-generation call with primary
provider `grok` whose grok attempt raises invokes exactly the providers
`[grok, openai]` (one fallback retry) and surfaces the OpenAI result —
success or failure — to the caller; a call pinned to the classifier's
provider `openai` invokes only `[openai]` and surfaces that provider's
result directly, with no retry against any other provider. -/
theorem call_llm_fallback_asymmetry (env : LLMEnv) (e : String)
    (hg : env.grok_key = true) (ho : env.openai_key = true)
    (hfail : env.grok_call = .error e) :
    (call_llm env "grok").1 = ["grok", "openai"] ∧
    (call_llm env "grok").2 =
      env.openai_call.map (fun content => (content, "openai")) ∧
    (call_llm env classifier_provider).1 = ["openai"] ∧
    (call_llm env classifier_provider).2 =
      env.openai_call.map (fun content => (content, "openai")) := by
  unfold call_llm classifier_provider
  simp only [hg, ho, hfail, Bool.and_true, Bool.and_self, beq_self_eq_true,
    if_true, Bool.not_true, Bool.false_eq_true, if_false]
  norm_num
  cases env.openai_call <;> simp [Except.map]

/-- C6, witness at a concrete environment where grok raises and OpenAI
succeeds. -/
theorem call_llm_fallback_asymmetry_witness :
    (sample_env.grok_key = true ∧ sample_env.openai_key = true ∧
     sample_env.grok_call = .error "rate limited") ∧
    ((call_llm sample_env "grok").1 = ["grok", "openai"] ∧
     (call_llm sample_env "grok").2 =
       sample_env.openai_call.map (fun content => (content, "openai")) ∧
     (call_llm sample_env classifier_provider).1 = ["openai"] ∧
     (call_llm sample_env classifier_provider).2 =
       sample_env.openai_call.map (fun content => (content, "openai"))) :=
  ⟨⟨rfl, rfl, rfl⟩,
   call_llm_fallback_asymmetry sample_env "rate limited" rfl rfl rfl⟩

/-- C7: the lead score is a pure function of the conversation snapshot —
two calls on identical snapshots return identical results (the embedding
is a total function of the snapshot alone: no model call, clock read or
other ambient state occurs in `calculate_lead_score`). -/
theorem calculate_lead_score_deterministic (c₁ c₂ : ConversationS)
    (h : c₁ = c₂) :
    calculate_lead_score c₁ = calculate_lead_score c₂ := by rw [h]

/-- C7, witness at a concrete snapshot. -/
theorem calculate_lead_score_deterministic_witness :
    (sample_conversation = sample_conversation) ∧
    calculate_lead_score sample_conversation =
      calculate_lead_score sample_conversation :=
  ⟨rfl, calculate_lead_score_deterministic sample_conversation
          sample_conversation rfl⟩

/-- C8: approving a pending response with a non-empty edited text makes
the final content the edited text (the row moves to status `edited` and
`get_final_content` returns the edit, not the original generated text). -/
theorem approve_edited_final_content (p : PendingResponse) (e : String)
    (now : ℚ) (he : e ≠ "") :
    get_final_content (approve_response p (some e) now) = e ∧
    (approve_response p (some e) now).status = "edited" := by
  have ht : truthyStr (some e) = true := by
    unfold truthyStr
    simp only [Bool.not_eq_true', beq_eq_false_iff_ne, ne_eq]
    exact he
  unfold approve_response
  rw [if_pos ht]
  refine ⟨?_, rfl⟩
  simp only [get_final_content]
  rw [if_neg (by simp [he])]

/-- C8, witness: editing a freshly created pending response to
"See you Tuesday!" makes that the final content. -/
theorem approve_edited_final_content_witness :
    ("See you Tuesday!" ≠ "") ∧
    (get_final_content
       (approve_response (create_pending_response "original draft" "grok")
         (some "See you Tuesday!") 5) = "See you Tuesday!" ∧
     (approve_response (create_pending_response "original draft" "grok")
         (some "See you Tuesday!") 5).status = "edited") :=
  ⟨by decide,
   approve_edited_final_content (create_pending_response "original draft" "grok")
     "See you Tuesday!" 5 (by decide)⟩

/-- C10: approving a pending response whose `edited_content` is unset with
an absent or empty edit sets status `approved` (not `edited`), leaves
`edited_content` unset, and the final content is the original generated
text — an empty edit never becomes the final content. -/
theorem approve_unedited_keeps_original (p : PendingResponse)
    (e : Option String) (now : ℚ)
    (hp : p.edited_content = none) (he : truthyStr e = false) :
    (approve_response p e now).status = "approved" ∧
    (approve_response p e now).edited_content = none ∧
    get_final_content (approve_response p e now) = p.llm_content := by
  unfold approve_response
  rw [if_neg (by simp [he])]
  refine ⟨rfl, hp, ?_⟩
  simp only [get_final_content, hp]

/-- C10, witness: approving a fresh pending response with an
empty-string edit. -/
theorem approve_unedited_keeps_original_witness :
    ((create_pending_response "original draft" "grok").edited_content = none) ∧
    (truthyStr (some "") = false) ∧
    ((approve_response (create_pending_response "original draft" "grok")
        (some "") 5).status = "approved" ∧
     (approve_response (create_pending_response "original draft" "grok")
        (some "") 5).edited_content = none ∧
     get_final_content
       (approve_response (create_pending_response "original draft" "grok")
         (some "") 5) = "original draft") :=
  ⟨rfl, rfl,
   approve_unedited_keeps_original (create_pending_response "original draft" "grok")
     (some "") 5 rfl rfl⟩

end GymLeads
